import Mathlib

/-!
Verification of `third_party/nucleus/io/tfrecord_writer.cc` (nucleus
TFRecordWriter).  The C++ class holds two owned handles:

* `writer_` — the `tensorflow::io::RecordWriter`, the compression filter
  and frame encoder sitting in front of the file;
* `file_`   — the `tensorflow::WritableFile`, the underlying sink.

We embed each handle as an `Option Unit` (`some ()` = live, `none` =
released) and each operation as a pure function that, given the outcomes
of the external collaborator calls it makes (modelled as `Bool`
arguments), returns the C++ return value, the successor state, and the
list of calls issued to the filter/sink chain.
-/

namespace TFRecord

/-- One call issued to the compression-filter/sink chain.  `filterWrite`
carries the encoded frame handed to the `RecordWriter`. -/
inductive Call where
  | filterWrite (frame : List Nat)
  | filterFlush
  | filterClose
  | sinkClose
deriving DecidableEq, Repr

/-- State of a `nucleus::TFRecordWriter`: the two owned handles.
`some ()` means the `unique_ptr` is non-null. -/
structure TFRecordWriter where
  writer_ : Option Unit
  file_ : Option Unit
deriving DecidableEq, Repr

/-! ## Frame codec

The byte-level framing is performed by `tensorflow::io::RecordWriter`,
whose source is not part of this repository.  Modelled from the spec:
per record the writer emits a little-endian `uint64` payload length, a
little-endian `uint32` masked CRC-32C of those eight length bytes, the
raw payload, and a little-endian `uint32` masked CRC-32C of the payload;
the mask rotates the raw CRC and adds a fixed offset constant. -/

/-- `leBytes w n` is the `w`-byte little-endian encoding of `n`. -/
def leBytes : Nat → Nat → List Nat
  | 0, _ => []
  | w + 1, n => (n % 256) :: leBytes w (n / 256)

/-- One bit step of the reflected CRC-32C (Castagnoli) computation. -/
def crcStep (crc : Nat) : Nat :=
  if crc % 2 = 1 then (crc / 2) ^^^ 0x82F63B78 else crc / 2

/-- Fold one data byte into the running CRC state. -/
def crcByte (crc b : Nat) : Nat := crcStep^[8] (crc ^^^ (b % 256))

/-- CRC-32C (Castagnoli polynomial) of a byte list. -/
def crc32c (data : List Nat) : Nat :=
  (data.foldl crcByte 0xFFFFFFFF) ^^^ 0xFFFFFFFF

/-- Offset constant of the CRC mask. -/
def maskDelta : Nat := 0xa282ead8

/-- Masked CRC-32C of a byte list: the raw CRC rotated right by 15 bits
and offset by `maskDelta`, reduced to 32 bits. -/
def maskedCrc (data : List Nat) : Nat :=
  let crc := crc32c data
  ((((crc >>> 15) ||| (crc <<< 17)) % 2 ^ 32) + maskDelta) % 2 ^ 32

/-- Modelled from the spec: the frame `tensorflow::io::RecordWriter`
writes for one payload — length, masked CRC of the length bytes,
payload, masked CRC of the payload. -/
def Encode (p : List Nat) : List Nat :=
  leBytes 8 p.length ++ leBytes 4 (maskedCrc (leBytes 8 p.length)) ++ p ++
    leBytes 4 (maskedCrc p)

/-! ## Writer operations, embedded from `tfrecord_writer.cc` -/

/-- The compression strings the spec recognizes: `""`, `"GZIP"`,
`"ZLIB"`. -/
def recognizedCompression (c : String) : Bool :=
  c = "" || c = "GZIP" || c = "ZLIB"

/-- `TFRecordWriter::New` (lines 41–61).  `NewWritableFile` either fails
(`newFileOk = false`), in which case `New` returns `nullptr`, or yields
the sink; then `CreateRecordWriterOptions` maps the compression string
to options — it returns options by value with no failure path — and the
`RecordWriter` constructor always succeeds, so on `newFileOk = true` the
returned writer has both handles set.  The compression string never
influences success. -/
def New (newFileOk : Bool) (compression : String) : Option TFRecordWriter :=
  if newFileOk then
    some { writer_ := some (), file_ := some () }
  else
    none

/-- `TFRecordWriter::WriteRecord` (lines 69–75): if `writer_` is null,
return `false` with no chain call; otherwise hand the encoded frame to
the `RecordWriter` and return that call's outcome.  The handles are
never modified. -/
def WriteRecord (w : TFRecordWriter) (record : List Nat) (writeOk : Bool) :
    Bool × TFRecordWriter × List Call :=
  match w.writer_ with
  | none => (false, w, [])
  | some _ => (writeOk, w, [Call.filterWrite (Encode record)])

/-- `TFRecordWriter::Flush` (lines 77–83): null check, then forward the
flush to the `RecordWriter`.  The handles are never modified. -/
def Flush (w : TFRecordWriter) (flushOk : Bool) :
    Bool × TFRecordWriter × List Call :=
  match w.writer_ with
  | none => (false, w, [])
  | some _ => (flushOk, w, [Call.filterFlush])

/-- The second half of `TFRecordWriter::Close` (lines 94–101): if
`file_` is non-null, close it; on failure return `false` keeping the
handle, on success reset it and return `true`. -/
def closeFile (w : TFRecordWriter) (fileCloseOk : Bool) :
    Bool × TFRecordWriter × List Call :=
  match w.file_ with
  | none => (true, w, [])
  | some _ =>
    if fileCloseOk then
      (true, { w with file_ := none }, [Call.sinkClose])
    else
      (false, w, [Call.sinkClose])

/-- `TFRecordWriter::Close` (lines 85–103): if `writer_` is non-null,
close it first; on failure return `false` immediately (both handles
kept), on success reset `writer_` and fall through to the `file_`
block. -/
def Close (w : TFRecordWriter) (writerCloseOk fileCloseOk : Bool) :
    Bool × TFRecordWriter × List Call :=
  match w.writer_ with
  | none => closeFile w fileCloseOk
  | some _ =>
    if writerCloseOk then
      let r := closeFile { w with writer_ := none } fileCloseOk
      (r.1, r.2.1, Call.filterClose :: r.2.2)
    else
      (false, w, [Call.filterClose])

/-- `TFRecordWriter::~TFRecordWriter` (lines 63–67): `writer_.reset()`
finalizes the `RecordWriter` (which needs the file still open for the
zlib flush) strictly before `file_.reset()` releases the sink. -/
def destructor (w : TFRecordWriter) : List Call :=
  (match w.writer_ with | some _ => [Call.filterClose] | none => []) ++
  (match w.file_ with | some _ => [Call.sinkClose] | none => [])

/-- The filter handle only ever exists alongside the sink handle it
writes through. -/
def filterNeedsSink (w : TFRecordWriter) : Bool :=
  !w.writer_.isSome || w.file_.isSome

/-! ## Helper lemmas -/

/-- `WriteRecord` never touches the two handles. -/
theorem WriteRecord_state (w : TFRecordWriter) (record : List Nat) (ok : Bool) :
    (WriteRecord w record ok).2.1 = w := by
  cases h : w.writer_ <;> simp [WriteRecord, h]

/-- `Flush` never touches the two handles. -/
theorem Flush_state (w : TFRecordWriter) (ok : Bool) :
    (Flush w ok).2.1 = w := by
  cases h : w.writer_ <;> simp [Flush, h]

/-- The `w`-byte little-endian encoding has exactly `w` bytes. -/
theorem leBytes_length (w n : Nat) : (leBytes w n).length = w := by
  induction w generalizing n with
  | zero => rfl
  | succ w ih => simp [leBytes, ih]

/-! ## Claims -/

/-- C1: `Close` issues the filter close strictly before the sink close,
and the destructor finalizes in the same order; on every path the trace
is a sublist of `[filterClose, sinkClose]`, so the sink is never closed
or released before the filter. -/
theorem C1_filter_closes_before_sink (w : TFRecordWriter) (a b : Bool) :
    (Close w a b).2.2.Sublist [Call.filterClose, Call.sinkClose] ∧
    (destructor w).Sublist [Call.filterClose, Call.sinkClose] := by
  rcases w with ⟨_ | ⟨⟨⟩⟩, _ | ⟨⟨⟩⟩⟩ <;> cases a <;> cases b <;> decide

/-- C2, counterexample: on an open writer whose filter close succeeds
but whose sink close fails, `Close` reports failure yet the sink handle
`file_` is NOT released, contrary to the claim that both internal
handles are released. -/
theorem C2_counterexample :
    (Close ⟨some (), some ()⟩ true false).1 = false ∧
    (Close ⟨some (), some ()⟩ true false).2.1.file_ ≠ none := by
  decide

/-- C2, amended: when the sink close fails after the filter closed,
`Close` reports failure, releases the filter handle, but retains the
sink handle; a retried `Close` therefore re-attempts only the sink
close and never re-closes the already-released filter. -/
theorem C2_sink_close_failure (w : TFRecordWriter)
    (h : w.writer_ = some ()) (h2 : w.file_ = some ()) (b : Bool) :
    (Close w true false).1 = false ∧
    (Close w true false).2.1.writer_ = none ∧
    (Close w true false).2.1.file_ = some () ∧
    Call.filterClose ∉ (Close (Close w true false).2.1 true b).2.2 := by
  obtain ⟨wr, fl⟩ := w
  obtain rfl : wr = some () := h
  obtain rfl : fl = some () := h2
  cases b <;> decide

theorem C2_sink_close_failure_witness :
    (Close ⟨some (), some ()⟩ true false).1 = false ∧
    (Close ⟨some (), some ()⟩ true false).2.1.writer_ = none ∧
    (Close ⟨some (), some ()⟩ true false).2.1.file_ = some () ∧
    Call.filterClose ∉ (Close (Close ⟨some (), some ()⟩ true false).2.1 true true).2.2 :=
  C2_sink_close_failure ⟨some (), some ()⟩ rfl rfl true

/-- C3, counterexample: `"BOGUS"` is outside the recognized set, yet
`New` with a successfully opened file still produces a writer — the
unrecognized compression string does not fail construction. -/
theorem C3_counterexample :
    recognizedCompression "BOGUS" = false ∧ New true "BOGUS" ≠ none := by
  refine ⟨rfl, ?_⟩
  simp [New]

/-- C3, amended: construction succeeds exactly when the sink file
opens; the compression-type string — recognized or not — never causes a
construction failure (the external options factory returns options
unconditionally, merely logging unsupported values). -/
theorem C3_construction_ignores_compression (fileOk : Bool) (c : String) :
    (New fileOk c).isSome = fileOk := by
  cases fileOk <;> simp [New]

/-- C4: `Close` is idempotent in success — whenever a `Close` call
returns `true`, any subsequent `Close` also returns `true`, whatever
the collaborator outcomes, with no double-finalization error. -/
theorem C4_close_idempotent (w : TFRecordWriter) (a b a2 b2 : Bool)
    (h : (Close w a b).1 = true) :
    (Close (Close w a b).2.1 a2 b2).1 = true := by
  rcases w with ⟨_ | ⟨⟨⟩⟩, _ | ⟨⟨⟩⟩⟩ <;> cases a <;> cases b <;> cases a2 <;> cases b2 <;>
    revert h <;> decide

theorem C4_close_idempotent_witness :
    (Close (Close ⟨some (), some ()⟩ true true).2.1 false false).1 = true :=
  C4_close_idempotent ⟨some (), some ()⟩ true true false false (by decide)

/-- C5: after a successful `Close`, both `WriteRecord` and `Flush`
return the not-open failure `false` and issue zero calls on the
filter/sink chain. -/
theorem C5_closed_writer_no_io (w : TFRecordWriter) (a b : Bool)
    (h : (Close w a b).1 = true) (record : List Nat) (writeOk flushOk : Bool) :
    (WriteRecord (Close w a b).2.1 record writeOk).1 = false ∧
    (WriteRecord (Close w a b).2.1 record writeOk).2.2 = [] ∧
    (Flush (Close w a b).2.1 flushOk).1 = false ∧
    (Flush (Close w a b).2.1 flushOk).2.2 = [] := by
  rcases w with ⟨_ | ⟨⟨⟩⟩, _ | ⟨⟨⟩⟩⟩ <;> cases a <;> cases b <;>
    simp_all [Close, closeFile, WriteRecord, Flush]

theorem C5_closed_writer_no_io_witness :
    (WriteRecord (Close ⟨some (), some ()⟩ true true).2.1 [104, 105] true).1 = false ∧
    (WriteRecord (Close ⟨some (), some ()⟩ true true).2.1 [104, 105] true).2.2 = [] ∧
    (Flush (Close ⟨some (), some ()⟩ true true).2.1 true).1 = false ∧
    (Flush (Close ⟨some (), some ()⟩ true true).2.1 true).2.2 = [] :=
  C5_closed_writer_no_io ⟨some (), some ()⟩ true true (by decide) [104, 105] true true

/-- C6: a downstream write failure makes `WriteRecord` return `false`
while leaving the writer state untouched (still open), so a subsequent
`WriteRecord` whose downstream write succeeds returns `true`. -/
theorem C6_write_failure_stays_open (w : TFRecordWriter)
    (h : w.writer_ = some ()) (record record2 : List Nat) :
    (WriteRecord w record false).1 = false ∧
    (WriteRecord w record false).2.1 = w ∧
    (WriteRecord (WriteRecord w record false).2.1 record2 true).1 = true := by
  simp [WriteRecord, h]

theorem C6_write_failure_stays_open_witness :
    (WriteRecord ⟨some (), some ()⟩ [1, 2] false).1 = false ∧
    (WriteRecord ⟨some (), some ()⟩ [1, 2] false).2.1 = (⟨some (), some ()⟩ : TFRecordWriter) ∧
    (WriteRecord (WriteRecord ⟨some (), some ()⟩ [1, 2] false).2.1 [3] true).1 = true :=
  C6_write_failure_stays_open ⟨some (), some ()⟩ rfl [1, 2] [3]

/-- C7: if opening the sink file fails, `New` returns no writer at
all; any writer `New` does return is fully initialized, with both the
filter and the sink handle live (the open state). -/
theorem C7_construction_all_or_nothing (fileOk : Bool) (c : String) :
    (fileOk = false → New fileOk c = none) ∧
    (∀ w, New fileOk c = some w → w.writer_ = some () ∧ w.file_ = some ()) := by
  cases fileOk
  · exact ⟨fun _ => rfl, fun w hw => absurd hw (by simp [New])⟩
  · refine ⟨fun h => by simp at h, fun w hw => ?_⟩
    obtain rfl : (⟨some (), some ()⟩ : TFRecordWriter) = w := Option.some.inj hw
    exact ⟨rfl, rfl⟩

theorem C7_construction_all_or_nothing_witness :
    New false "GZIP" = none ∧
    ((⟨some (), some ()⟩ : TFRecordWriter).writer_ = some () ∧
      (⟨some (), some ()⟩ : TFRecordWriter).file_ = some ()) :=
  ⟨(C7_construction_all_or_nothing false "GZIP").1 rfl,
   (C7_construction_all_or_nothing true "GZIP").2 ⟨some (), some ()⟩ rfl⟩

/-- C9: every writer produced by `New` satisfies the invariant that a
live filter handle implies a live sink handle, and each of
`WriteRecord`, `Flush` and `Close` preserves that invariant. -/
theorem C9_filter_never_without_sink (fileOk ok a b : Bool) (c : String)
    (w w0 : TFRecordWriter) (record : List Nat) :
    (New fileOk c = some w → filterNeedsSink w = true) ∧
    (filterNeedsSink w0 = true → filterNeedsSink (WriteRecord w0 record ok).2.1 = true) ∧
    (filterNeedsSink w0 = true → filterNeedsSink (Flush w0 ok).2.1 = true) ∧
    (filterNeedsSink w0 = true → filterNeedsSink (Close w0 a b).2.1 = true) := by
  refine ⟨?_, ?_, ?_, ?_⟩
  · intro hw
    cases fileOk
    · exact absurd hw (by simp [New])
    · obtain rfl : (⟨some (), some ()⟩ : TFRecordWriter) = w := Option.some.inj hw
      rfl
  · rw [WriteRecord_state]; exact id
  · rw [Flush_state]; exact id
  · rcases w0 with ⟨_ | ⟨⟨⟩⟩, _ | ⟨⟨⟩⟩⟩ <;> cases a <;> cases b <;> decide

theorem C9_filter_never_without_sink_witness :
    filterNeedsSink (Close ⟨some (), some ()⟩ true false).2.1 = true :=
  (C9_filter_never_without_sink true true true false "" ⟨some (), some ()⟩
    ⟨some (), some ()⟩ []).2.2.2 (by decide)

/-- C10: a successful `Close` leaves both handles null, and the
all-null state is permanent: `WriteRecord` and `Flush` fail without
changing it, and `Close` succeeds without changing it, so no operation
restores either handle. -/
theorem C10_closed_is_permanent (w : TFRecordWriter) (a b : Bool)
    (h : (Close w a b).1 = true) (record : List Nat) (ok a2 b2 : Bool) :
    (Close w a b).2.1.writer_ = none ∧ (Close w a b).2.1.file_ = none ∧
    (∀ w2 : TFRecordWriter, w2.writer_ = none → w2.file_ = none →
      (WriteRecord w2 record ok).1 = false ∧ (WriteRecord w2 record ok).2.1 = w2 ∧
      (Flush w2 ok).1 = false ∧ (Flush w2 ok).2.1 = w2 ∧
      (Close w2 a2 b2).1 = true ∧ (Close w2 a2 b2).2.1 = w2) := by
  refine ⟨?_, ?_, ?_⟩
  · rcases w with ⟨_ | ⟨⟨⟩⟩, _ | ⟨⟨⟩⟩⟩ <;> cases a <;> cases b <;> simp_all [Close, closeFile]
  · rcases w with ⟨_ | ⟨⟨⟩⟩, _ | ⟨⟨⟩⟩⟩ <;> cases a <;> cases b <;> simp_all [Close, closeFile]
  · intro w2 h1 h2
    simp [WriteRecord, Flush, Close, closeFile, h1, h2]

theorem C10_closed_is_permanent_witness :
    (WriteRecord ⟨none, none⟩ [7] true).1 = false :=
  ((C10_closed_is_permanent ⟨some (), some ()⟩ true true (by decide)
    [7] true true true).2.2 ⟨none, none⟩ rfl rfl).1

/-- C8: for every payload, the encoded frame is
`8 + 4 + len(p) + 4` bytes long and decomposes as the little-endian
length, the masked CRC-32C of the length bytes, the raw payload, and
the masked CRC-32C of the payload, in that order. -/
theorem C8_frame_layout (p : List Nat) :
    (Encode p).length = 8 + 4 + p.length + 4 ∧
    (Encode p).take 8 = leBytes 8 p.length ∧
    ((Encode p).drop 8).take 4 = leBytes 4 (maskedCrc (leBytes 8 p.length)) ∧
    ((Encode p).drop 12).take p.length = p ∧
    (Encode p).drop (12 + p.length) = leBytes 4 (maskedCrc p) := by
  have hA : (leBytes 8 p.length).length = 8 := leBytes_length 8 _
  have hB : (leBytes 4 (maskedCrc (leBytes 8 p.length))).length = 4 := leBytes_length 4 _
  have hAB : (leBytes 8 p.length ++ leBytes 4 (maskedCrc (leBytes 8 p.length))).length = 12 := by
    simp [hA, hB]
  have hABp :
      (leBytes 8 p.length ++ leBytes 4 (maskedCrc (leBytes 8 p.length)) ++ p).length =
        12 + p.length := by
    simp [hA, hB]
    omega
  have e1 : Encode p =
      leBytes 8 p.length ++
        (leBytes 4 (maskedCrc (leBytes 8 p.length)) ++ (p ++ leBytes 4 (maskedCrc p))) := by
    simp [Encode, List.append_assoc]
  have e2 : Encode p =
      leBytes 8 p.length ++ leBytes 4 (maskedCrc (leBytes 8 p.length)) ++
        (p ++ leBytes 4 (maskedCrc p)) := by
    simp [Encode, List.append_assoc]
  refine ⟨?_, ?_, ?_, ?_, ?_⟩
  · simp [Encode, leBytes_length]
    omega
  · rw [e1]
    exact List.take_left' hA
  · rw [e1, List.drop_left' hA]
    exact List.take_left' hB
  · rw [e2, List.drop_left' hAB]
    exact List.take_left' rfl
  · rw [Encode]
    exact List.drop_left' hABp

end TFRecord
